import Mathlib

/-!
Verification of the SendRaw calibre plugin (`src/send_raw/`): a shallow
embedding of the metadata sanitizer, task builder, transport client,
batch worker and remote catalog reset, with theorems checking the
natural-language specification against the code.

Conventions of the embedding:
* Python `None`-able attributes are `Option` fields; Python truthiness of
  such values is made explicit (`truthyStr`, `truthyInt`).
* calibre `Metadata` objects are the fixed-shape record `PyMetadata`
  covering exactly the attributes the plugin reads or writes; an outer
  `Option` on a field models attribute absence (`hasattr`).
* Strings manipulated character by character (`_safe_filename`,
  templates) are `List Char`, matching Python's code-point sequences.
* Side-effecting protocol code is modelled by explicit event traces
  (`ProtoEv`) and state passing (`WorkerSt`); progress fractions
  `float(i)/total` are modelled as exact rationals.
-/

namespace SendRaw

/-- Python truthiness of an optional string: `None` (or an absent
attribute) and the empty string are falsy. -/
def truthyStr : Option String → Bool
  | none => false
  | some s => !s.isEmpty

/-- Python truthiness of an optional number: `None` and `0` are falsy. -/
def truthyInt : Option Int → Bool
  | none => false
  | some n => n != 0

/-- Python `str.lower` over code points (the format codes and extensions
involved are ASCII). -/
def pyLower (s : String) : String := String.mk (s.toList.map Char.toLower)

/-- Python `str.upper` over code points. -/
def pyUpper (s : String) : String := String.mk (s.toList.map Char.toUpper)

/-- Python `f"{x}"` on an optional string: `None` prints as `"None"`. -/
def pyShowOptStr : Option String → String
  | none => "None"
  | some s => s

/-- Shallow embedding of a calibre `Metadata` object, restricted to the
attributes the plugin touches.  `format_metadata` is a map from format
code to its per-format sub-record (modelled as an association list);
`cover_data` and `thumbnail` hold optional binary payloads, with the
outer `Option` recording whether the attribute exists at all. -/
structure PyMetadata where
  title : Option String
  authors : List String
  series : Option String
  series_index : Option Int
  uuid : Option String
  extension : Option String
  size : Option Int
  md5 : Option String
  format_metadata : Option (List (String × String))
  cover_data : Option (Option String)
  thumbnail : Option (Option String)
  device_collections : Option (List String)
deriving DecidableEq

/-- Embedding of `prepare_metadata_for_device` from `src/send_raw/ui.py`
(lines 47-82).  `fresh_uuid` stands for the `str(uuid4())` draw made when
the source record lacks a truthy uuid.  The steps mirror the source: set
extension (lowercased) and size; set md5 only when the argument is
truthy; blank `format_metadata` when the attribute exists; null out
`cover_data` and `thumbnail` when they exist; generate a uuid when the
current one is falsy; rebuild `device_collections` from
`getattr(metadata, "device_collections", []) or []`. -/
def prepare_metadata_for_device (mi : PyMetadata) (extension : String)
    (file_size : Int) (file_md5 : Option String) (fresh_uuid : String) :
    PyMetadata :=
  let m := mi
  let m := { m with extension := some (pyLower extension), size := some file_size }
  let m := if truthyStr file_md5 then { m with md5 := file_md5 } else m
  let m := if m.format_metadata.isSome then { m with format_metadata := some [] } else m
  let m := if m.cover_data.isSome then { m with cover_data := some none } else m
  let m := if m.thumbnail.isSome then { m with thumbnail := some none } else m
  let m := if !truthyStr m.uuid then { m with uuid := some fresh_uuid } else m
  { m with device_collections := some (m.device_collections.getD []) }

/-- The nine filesystem-unsafe characters listed in `_safe_filename`. -/
def invalid_chars : List Char := ['<', '>', ':', '"', '/', '\\', '|', '?', '*']

/-- Python `name.replace(c, "_")` for a single character `c` is a map. -/
def replaceChar (c : Char) (l : List Char) : List Char :=
  l.map fun x => if x = c then '_' else x

/-- The replacement loop of `_safe_filename`: one `str.replace` per
unsafe character, in order. -/
def replace_invalid (l : List Char) : List Char :=
  invalid_chars.foldl (fun acc c => replaceChar c acc) l

/-- Python `str.strip(chars)`: remove leading and trailing characters
drawn from the given set. -/
def pyStrip (strip : List Char) (l : List Char) : List Char :=
  ((l.dropWhile (fun c => strip.contains c)).reverse.dropWhile
    (fun c => strip.contains c)).reverse

/-- Embedding of `SendRawAction._safe_filename` (`src/send_raw/ui.py`
lines 848-862): empty input falls back to `"Unknown"`; unsafe characters
become underscores; leading/trailing dots and spaces are stripped; the
result is truncated to 100 characters when longer; an empty result falls
back to `"Unknown"`. -/
def safe_filename (name : List Char) : List Char :=
  if name.isEmpty then "Unknown".toList
  else
    let n1 := replace_invalid name
    let n2 := pyStrip ['.', ' '] n1
    let n3 := if n2.length > 100 then n2.take 100 else n2
    if n3.isEmpty then "Unknown".toList else n3

/-- A JSON-serializable preference value, covering the types stored by
`config.py`. -/
inductive PrefVal where
  | b (v : Bool)
  | s (v : String)
  | sl (v : List String)
  | n (v : Int)
deriving DecidableEq

def PrefVal.asBool : PrefVal → Bool
  | .b v => v
  | _ => false

def PrefVal.asStr : PrefVal → String
  | .s v => v
  | _ => ""

def PrefVal.asStrList : PrefVal → List String
  | .sl v => v
  | _ => []

/-- calibre's `JSONConfig` store: explicitly stored values plus the
defaults registered by the plugin at import time. -/
structure JsonConfig where
  stored : List (String × PrefVal)
  defaults : List (String × PrefVal)

/-- calibre `JSONConfig.get` (external collaborator, from
`calibre.utils.config`): an explicitly stored value wins, otherwise the
registered default, otherwise the call-site fallback. -/
def JsonConfig.get (c : JsonConfig) (key : String) (fallback : PrefVal) : PrefVal :=
  match c.stored.lookup key with
  | some v => v
  | none => (c.defaults.lookup key).getD fallback

/-- The defaults registered in `src/send_raw/config.py` lines 24-28. -/
def send_raw_defaults : List (String × PrefVal) :=
  [("preferred_formats", .sl ["EPUB", "AZW3", "MOBI", "PDF", "CBZ", "CBR"]),
   ("device_subdir", .s ""),
   ("filename_template", .s "{author} - {title}"),
   ("verify_md5", .b false),
   ("timeout", .n 120)]

/-- The plugin's `prefs` object with the given explicitly stored values. -/
def mkPrefs (stored : List (String × PrefVal)) : JsonConfig :=
  ⟨stored, send_raw_defaults⟩

/-- The preference-list walk of `_build_tasks`: first preferred format
(uppercased) present among the book's formats wins. -/
def pick_preferred : List String → List String → Option String
  | [], _ => none
  | f :: rest, formats =>
      if formats.contains (pyUpper f) then some (pyUpper f)
      else pick_preferred rest formats

/-- Format selection of `SendRawAction._build_tasks` (`src/send_raw/ui.py`
lines 781-792), for a book whose format list is already known: a
requested format is used exactly when present; otherwise the preference
walk; otherwise `formats[0]`. -/
def select_format (requested : Option String) (preferred : List String)
    (formats : List String) : Option String :=
  match requested with
  | some r => if formats.contains (pyUpper r) then some (pyUpper r) else none
  | none =>
    match pick_preferred preferred formats with
    | some f => some f
    | none => formats.head?

/-- Worker loop for Python `str.format` restricted to simple `\x7bname\x7d`
placeholders, which is the fragment the plugin's templates use (escape
sequences are not modelled).  The second argument is `some acc` while
scanning a placeholder name (accumulated reversed); `none` yields
`KeyError`/`ValueError`, which `_build_filename` turns into the
fallback pattern. -/
def formatTplGo (subst : String → Option (List Char)) :
    List Char → Option (List Char) → Option (List Char)
  | [], none => some []
  | [], some _ => none
  | c :: rest, none =>
      if c = '{' then formatTplGo subst rest (some [])
      else if c = '}' then none
      else (formatTplGo subst rest none).map (c :: ·)
  | c :: rest, some nm =>
      if c = '}' then
        match subst (String.mk nm.reverse) with
        | some v => (formatTplGo subst rest none).map (v ++ ·)
        | none => none
      else formatTplGo subst rest (some (c :: nm))

def formatTpl (subst : String → Option (List Char)) (tpl : List Char) :
    Option (List Char) :=
  formatTplGo subst tpl none

/-- Embedding of `SendRawAction._build_filename` (`src/send_raw/ui.py`
lines 829-846): placeholder values are computed (each run through
`_safe_filename`, except `series_index`), the template is applied, a
`KeyError`/`ValueError` falls back to `"author - title"`, and the
lowercased format extension is appended afterwards. -/
def build_filename (mi : PyMetadata) (fmt : String) (template : String) :
    List Char :=
  let author := match mi.authors.head? with
    | some a => a
    | none => "Unknown"
  let title := if truthyStr mi.title then mi.title.getD "" else "Unknown"
  let series := mi.series.getD ""
  let series_index :=
    if truthyInt mi.series_index then toString (mi.series_index.getD 0) else ""
  let subst := fun k =>
    if k = "author" then some (safe_filename author.toList)
    else if k = "title" then some (safe_filename title.toList)
    else if k = "series" then some (safe_filename series.toList)
    else if k = "series_index" then some series_index.toList
    else none
  let filename :=
    match formatTpl subst template.toList with
    | some f => f
    | none =>
        safe_filename author.toList ++ " - ".toList ++ safe_filename title.toList
  filename ++ ('.' :: (pyLower fmt).toList)

/-- One transfer task, the dict built by `_build_tasks`. -/
structure RawTask where
  book_id : Nat
  path : String
  name : String
  title : String
  metadata : PyMetadata
  size : Int
  verify_md5 : Bool
  format : String
deriving DecidableEq

/-- One library book as `_build_tasks` sees it through the database
collaborator: its metadata record, its available format codes
(`db.formats`), the path lookup (`db.format_abspath`), the file-system
existence check and size, and the uuid draw used if the sanitizer has to
generate one. -/
structure Book where
  book_id : Nat
  mi : PyMetadata
  formats : List String
  abspath : String → Option String
  path_exists : String → Bool
  size_of : String → Int
  fresh_uuid : String

/-- The per-book body of the `_build_tasks` loop (`src/send_raw/ui.py`
lines 774-825): no formats, unresolvable format, or missing file record a
skip reason; otherwise a task is assembled with the built filename, the
file size read from disk, and metadata sanitized with `file_md5=None`
(MD5 deferred to the worker). -/
def build_one_task (preferred : List String) (template : String)
    (verify_md5 : Bool) (requested : Option String) (book : Book) :
    Except String RawTask :=
  if book.formats.isEmpty then
    Except.error (pyShowOptStr book.mi.title ++ " - 无可用格式")
  else
    match select_format requested preferred book.formats with
    | none =>
        Except.error (pyShowOptStr book.mi.title ++ " - 无 "
          ++ pyShowOptStr requested ++ " 格式")
    | some target_fmt =>
      match book.abspath target_fmt with
      | none => Except.error (pyShowOptStr book.mi.title ++ " - 文件不存在")
      | some raw_path =>
        if !book.path_exists raw_path then
          Except.error (pyShowOptStr book.mi.title ++ " - 文件不存在")
        else
          let filename := build_filename book.mi target_fmt template
          let file_size := book.size_of raw_path
          let metadata_obj :=
            prepare_metadata_for_device book.mi target_fmt file_size none
              book.fresh_uuid
          Except.ok
            { book_id := book.book_id
              path := raw_path
              name := String.mk filename
              title := pyShowOptStr book.mi.title
              metadata := metadata_obj
              size := file_size
              verify_md5 := verify_md5
              format := target_fmt }

/-- Embedding of `SendRawAction._build_tasks`: read the three consumed
preferences (with the call-site fallbacks of the source), then fold the
per-book body over the selection, collecting tasks and skip reasons in
order. -/
def build_tasks (prefs : JsonConfig) (books : List Book)
    (requested : Option String) : List RawTask × List String :=
  let preferred :=
    (prefs.get "preferred_formats" (.sl ["EPUB", "AZW3", "MOBI", "PDF"])).asStrList
  let template := (prefs.get "filename_template" (.s "{author} - {title}")).asStr
  let verify_md5 := (prefs.get "verify_md5" (.b true)).asBool
  books.foldr
    (fun b acc =>
      match build_one_task preferred template verify_md5 requested b with
      | .ok t => (t :: acc.1, acc.2)
      | .error e => (acc.1, e :: acc.2))
    ([], [])

/-- A Python exception as the plugin observes it: its string form and the
`traceback.format_exc()` trace. -/
structure PyExc where
  msg : String
  trace : String
deriving DecidableEq

/-- Behavior of the device's `upload_books` primitive for one call: a
returned result list, or a raised exception.  Result-list elements are
`Option` pairs so that a falsy `None` entry is representable alongside a
`(lpath, length)` tuple (a tuple, even `(None, -1)`, is truthy in
Python). -/
inductive UploadResult where
  | ok (paths : List (Option (Option String × Int)))
  | exc (e : PyExc)

/-- An error report accumulated by `_record_error`: title, message,
detailed trace. -/
abbrev ErrorReport := String × String × String

/-- Python `pattern in s` substring containment over code points. -/
def containsSub (pat : List Char) : List Char → Bool
  | [] => pat.isEmpty
  | c :: rest => List.isPrefixOf pat (c :: rest) || containsSub pat rest

/-- The corruption-signature test of
`SmartDeviceTransport._record_error`: the message mentions a missing
`extension` field or a `KeyError`. -/
def has_corruption_signature (message : String) : Bool :=
  containsSub "'extension'".toList message.toList
    || containsSub "KeyError".toList message.toList

/-- The remediation note appended for a corruption signature. -/
def corruption_note : String :=
  "检测到设备端元数据可能已损坏。\n1) 请在插件菜单中使用“清除 KOReader 元数据缓存”删除主机端缓存；\n2) 并在 KOReader -> Calibre 无线 -> 菜单 中执行“重置无线共享”以重建 metadata.calibre。"

/-- Embedding of `SmartDeviceTransport._record_error`
(`src/send_raw/ui.py` lines 121-135): append one report, enriching
message and details with the remediation note when the known corruption
signature matches. -/
def record_error (title : String) (e : PyExc) (reports : List ErrorReport) :
    List ErrorReport :=
  if has_corruption_signature e.msg then
    reports ++ [(title, e.msg ++ "\n" ++ corruption_note,
                 e.trace ++ "\n\n" ++ corruption_note)]
  else
    reports ++ [(title, e.msg, e.trace)]

/-- Embedding of `SmartDeviceTransport.send_single_book`
(`src/send_raw/ui.py` lines 94-119).  The device call is `upload`; the
result triple is `(is_ok, err_msg, location)` exactly as the source
returns it, and the transport's error-report list is threaded through.
The success test is the source's `if paths and paths[0]`: the result
list is non-empty and its first element is truthy. -/
def send_single_book (upload : RawTask → UploadResult)
    (reports : List ErrorReport) (task : RawTask) :
    (Bool × Option String × Option (Option String × Int)) × List ErrorReport :=
  match upload task with
  | .ok paths =>
    if !paths.isEmpty && (paths.headD none).isSome then
      ((true, none, paths.headD none), reports)
    else
      ((false, some "传输未确认", none), reports)
  | .exc e => ((false, some e.msg, none), record_error task.title e reports)

/-- Classification loop of the older flat `SmartDeviceTransport.send_books`
(`src/ui.py` lines 82-86): task `i` succeeds iff the result list has an
entry `i` whose length component is non-negative. -/
def send_books_classify :
    List RawTask → Nat → List (Option String × Int) →
      List String × List (String × String)
  | [], _, _ => ([], [])
  | t :: rest, i, paths =>
    let acc := send_books_classify rest (i + 1) paths
    match paths[i]? with
    | some p =>
        if 0 ≤ p.2 then (t.title :: acc.1, acc.2)
        else (acc.1, (t.title, "传输失败") :: acc.2)
    | none => (acc.1, (t.title, "传输失败") :: acc.2)

/-- Accumulated state of `send_raw_books_worker`: the five returned
collections, the notifications queue, and (as instrumentation) the trace
of tasks for which the device upload was actually invoked. -/
structure WorkerSt where
  success_titles : List String
  failed_list : List (String × String)
  reports : List ErrorReport
  upload_locations : List (Option String × Int)
  upload_metadata : List PyMetadata
  notes : List (Rat × String)
  attempted : List String
deriving DecidableEq

def initSt : WorkerSt := ⟨[], [], [], [], [], [], []⟩

/-- The progress fraction `float(i)/total` of a notification, as an
exact rational. -/
def progressFrac (i total : Nat) : Rat := (i : Rat) / (total : Rat)

/-- One iteration of the worker loop (`src/send_raw/ui.py` lines
163-193), for task index `i` of `total`: optional MD5 computation (a
failure is only logged), the progress notification, the send, and the
classification of the outcome.  `fs` models `calculate_md5` on the
file-system collaborator. -/
def process_task (upload : RawTask → UploadResult)
    (fs : String → Except PyExc String) (total : Nat) (i : Nat)
    (task : RawTask) (st : WorkerSt) : WorkerSt :=
  let step1 : RawTask × WorkerSt :=
    if task.verify_md5 then
      let st := { st with notes := st.notes ++
        [(progressFrac i total,
          "正在计算 MD5 (" ++ toString (i + 1) ++ "/" ++ toString total ++ "): "
            ++ task.title)] }
      match fs task.path with
      | .ok m => ({ task with metadata := { task.metadata with md5 := some m } }, st)
      | .error _ => (task, st)
    else (task, st)
  let task := step1.1
  let st := step1.2
  let st := { st with
    notes := st.notes ++
      [(progressFrac i total,
        "正在发送 (" ++ toString (i + 1) ++ "/" ++ toString total ++ "): "
          ++ task.title)]
    attempted := st.attempted ++ [task.title] }
  let sendRes := send_single_book upload st.reports task
  let st := { st with reports := sendRes.2 }
  match sendRes.1 with
  | (true, _, location) =>
    let st := { st with success_titles := st.success_titles ++ [task.title] }
    match location with
    | some p => { st with
        upload_locations := st.upload_locations ++ [p]
        upload_metadata := st.upload_metadata ++ [task.metadata] }
    | none => st
  | (false, err, _) =>
    { st with failed_list := st.failed_list ++ [(task.title, err.getD "")] }

/-- The worker loop: before each task the cooperative abort flag is
checked (modelled as a function of the iteration index) and the loop
stops early when it is set. -/
def worker_go (upload : RawTask → UploadResult)
    (fs : String → Except PyExc String) (abort : Nat → Bool) (total : Nat) :
    List RawTask → Nat → WorkerSt → WorkerSt
  | [], _, st => st
  | t :: rest, i, st =>
    if abort i then st
    else worker_go upload fs abort total rest (i + 1)
      (process_task upload fs total i t st)

/-- Embedding of `send_raw_books_worker` (`src/send_raw/ui.py` lines
141-203): run the loop over the tasks, then emit the final progress
notification unconditionally. -/
def send_raw_books_worker (upload : RawTask → UploadResult)
    (fs : String → Except PyExc String) (abort : Nat → Bool)
    (tasks : List RawTask) : WorkerSt :=
  let st := worker_go upload fs abort tasks.length tasks 0 initSt
  { st with notes := st.notes ++ [((1 : Rat), "发送完成")] }

/-- An abort event that becomes set once `k` tasks have been processed:
the check before task `k` (0-based) is the first to observe it. -/
def abortAfter (k : Nat) : Nat → Bool := fun i => decide (k ≤ i)

/-- The metadata record fabricated by `_purge_remote_metadata_file`
(`last_modified` is omitted: the plugin only forwards it). -/
structure ResetMeta where
  title : String
  authors : List String
  uuid : String
  lpath : String
  size : Nat
  tags : List String
  comments : String
deriving DecidableEq

/-- The field map of the crafted `SEND_BOOK` exchange, bit-for-field. -/
structure SendBookArgs where
  lpath : String
  length : Nat
  metadata : ResetMeta
  thisBook : Nat
  totalBooks : Nat
  willStreamBooks : Bool
  willStreamBinary : Bool
  wantsSendOkToSendbook : Bool
  canSupportLpathChanges : Bool
deriving DecidableEq

/-- A device response field map: optional `message` and `lpath` fields
(`result.get(key, default)` is `Option.getD`). -/
structure DevResponse where
  message : Option String
  lpath : Option String
deriving DecidableEq

/-- The device-session collaborator used by the recovery path: the
pre-send acknowledgement flag and the request/response call. -/
structure ProtoDevice where
  can_send_ok_to_sendbook : Bool
  respond : String → SendBookArgs → String × DevResponse

/-- Protocol-level events, traced in order of occurrence. -/
inductive ProtoEv where
  | lockAcquire
  | callClient (opname : String) (args : SendBookArgs) (wait_for_response : Bool)
  | sendBytes (payload : String)
  | lockRelease
  | deleteBooks (paths : List String)
deriving DecidableEq

/-- The payload of the catalog reset: the serialized empty book list. -/
def reset_payload : String := "[]"

/-- The argument map built by `_purge_remote_metadata_file`
(`src/send_raw/ui.py` lines 714-747). -/
def reset_args (lpath : String) (fresh_uuid : String) (wait_for_ack : Bool) :
    SendBookArgs :=
  { lpath := lpath
    length := reset_payload.length
    metadata :=
      { title := "Calibre Metadata Reset"
        authors := ["Calibre"]
        uuid := fresh_uuid
        lpath := lpath
        size := reset_payload.length
        tags := []
        comments := "calibre-metadata-reset" }
    thisBook := 0
    totalBooks := 1
    willStreamBooks := true
    willStreamBinary := true
    wantsSendOkToSendbook := wait_for_ack
    canSupportLpathChanges := true }

/-- Embedding of `SendRawAction._purge_remote_metadata_file`
(`src/send_raw/ui.py` lines 714-757).  Returns the device error message
(the `RuntimeError`) or the final lpath, together with the event trace;
the `with device.sync_lock` block releases the lock on every exit path,
including the raise. -/
def purge_remote_metadata_file (device : ProtoDevice) (fresh_uuid : String)
    (lpath : String) : Except String String × List ProtoEv :=
  let wait_for_ack := device.can_send_ok_to_sendbook
  let args := reset_args lpath fresh_uuid wait_for_ack
  let evs := [ProtoEv.lockAcquire, ProtoEv.callClient "SEND_BOOK" args wait_for_ack]
  let resp := device.respond "SEND_BOOK" args
  if wait_for_ack && (resp.1 == "ERROR") then
    (Except.error (resp.2.message.getD "SEND_BOOK failed"),
     evs ++ [ProtoEv.lockRelease])
  else
    let lpath := if wait_for_ack then resp.2.lpath.getD lpath else lpath
    if reset_payload.isEmpty then
      (Except.ok lpath, evs ++ [ProtoEv.lockRelease])
    else
      (Except.ok lpath,
       evs ++ [ProtoEv.sendBytes reset_payload, ProtoEv.lockRelease])

/-- The try-block of `delete_remote_metadata_file` (`src/send_raw/ui.py`
lines 679-681): purge the catalog file, then delete whatever path the
purge returned (the device-corrected one, if an acknowledgement supplied
it). -/
def delete_remote_flow (device : ProtoDevice) (fresh_uuid : String)
    (target : String) : Except String String × List ProtoEv :=
  match purge_remote_metadata_file device fresh_uuid target with
  | (Except.error e, evs) => (Except.error e, evs)
  | (Except.ok cleaned, evs) =>
      (Except.ok cleaned, evs ++ [ProtoEv.deleteBooks [cleaned]])

/-! ## Concrete fixtures used by the theorems and witnesses -/

/-- A plain metadata record with every optional attribute populated or
absent in an unremarkable way. -/
def mi0 : PyMetadata :=
  { title := some "T"
    authors := ["A"]
    series := none
    series_index := none
    uuid := some "u0"
    extension := none
    size := none
    md5 := none
    format_metadata := none
    cover_data := none
    thumbnail := none
    device_collections := none }

/-- A concrete transfer task with the given title and source path. -/
def mkTask (title path : String) : RawTask :=
  { book_id := 0
    path := path
    name := title
    title := title
    metadata := mi0
    size := 3
    verify_md5 := false
    format := "EPUB" }

/-- A device session that acknowledges the crafted exchange with a
corrected lpath. -/
def ackDevice : ProtoDevice :=
  { can_send_ok_to_sendbook := true
    respond := fun _ _ => ("OK", ⟨none, some "inbox/.metadata.calibre"⟩) }

/-- A device session that answers the crafted exchange with an explicit
error opcode carrying the message `"locked"`. -/
def lockedDevice : ProtoDevice :=
  { can_send_ok_to_sendbook := true
    respond := fun _ _ => ("ERROR", ⟨some "locked", none⟩) }

/-- Three tasks for the partial-failure batch scenario. -/
def c4_t1 : RawTask := mkTask "Book1" "/b1.epub"
def c4_t2 : RawTask := mkTask "Book2" "/b2.epub"
def c4_t3 : RawTask := mkTask "Book3" "/b3.epub"

/-- A device whose upload raises on the second book and confirms the
others at their name with a non-negative length. -/
def c4_upload : RawTask → UploadResult := fun t =>
  if t.title = "Book2" then .exc ⟨"network down", "Traceback: network down"⟩
  else .ok [some (some t.name, t.size)]

/-- A trivial file-system collaborator for the MD5 step. -/
def md5fs : String → Except PyExc String := fun p => .ok ("md5-" ++ p)

/-- Metadata whose single author and title are each 150 characters. -/
def c10_mi : PyMetadata :=
  { mi0 with
    title := some (String.mk (List.replicate 150 'b'))
    authors := [String.mk (List.replicate 150 'a')] }

/-- A library book with one EPUB format and an existing file, used for
the task-building fixtures. -/
def c9_book : Book :=
  { book_id := 1
    mi := mi0
    formats := ["EPUB"]
    abspath := fun _ => some "/books/t.epub"
    path_exists := fun _ => true
    size_of := fun _ => 5
    fresh_uuid := "u-9" }

/-! ## Theorems -/

/-- C1: the device `upload_books` result `[(None, -1)]` — the protocol's
"not accepted" answer (a non-negative length signals acceptance) — is a
truthy Python tuple, so `send_single_book`'s `if paths and paths[0]`
test reports it as a success carrying `(None, -1)` as the location,
instead of the failure `传输未确认` the claim (and the older
`send_books`, which tests `paths[i][1] >= 0` and fails the task) calls
for. -/
theorem C1_unconfirmed_tuple_reported_as_success :
    send_single_book (fun _ => .ok [some (none, -1)]) [] (mkTask "Book" "/b.epub")
      = ((true, none, some (none, -1)), []) ∧
    send_books_classify [mkTask "Book" "/b.epub"] 0 [(none, -1)]
      = ([], [("Book", "传输失败")]) := by
  exact ⟨rfl, rfl⟩

/-- C2: with `wantsSendOkToSendbook` true and the device answering the
crafted `SEND_BOOK` exchange with opcode `"ERROR"`, the remote catalog
reset raises a fatal error carrying the device's `message` field; the
trace is exactly acquire-lock, the client call (with its response wait),
release-lock — so no byte stream is sent and the whole exchange happens
under the session's exclusive lock. -/
theorem C2_reset_error_is_fatal (device : ProtoDevice) (u lp : String)
    (res : DevResponse)
    (hack : device.can_send_ok_to_sendbook = true)
    (hresp : device.respond "SEND_BOOK" (reset_args lp u true) = ("ERROR", res))
    (hmsg : res.message = some "locked") :
    purge_remote_metadata_file device u lp
      = (Except.error "locked",
         [ProtoEv.lockAcquire,
          ProtoEv.callClient "SEND_BOOK" (reset_args lp u true) true,
          ProtoEv.lockRelease]) := by
  simp [purge_remote_metadata_file, hack, hresp, hmsg]

/-- C2 witness: the error scenario at a concrete device and path. -/
theorem C2_reset_error_is_fatal_witness :
    purge_remote_metadata_file lockedDevice "u-1" ".metadata.calibre"
      = (Except.error "locked",
         [ProtoEv.lockAcquire,
          ProtoEv.callClient "SEND_BOOK" (reset_args ".metadata.calibre" "u-1" true) true,
          ProtoEv.lockRelease]) := by
  exact C2_reset_error_is_fatal lockedDevice "u-1" ".metadata.calibre"
    ⟨some "locked", none⟩ rfl rfl rfl

/-- C3 counterexample: the crafted transfer is not zero-length — its
`length` field is 2 and the two-byte payload `"[]"` is streamed to the
device socket. -/
theorem C3_counterexample_transfer_not_zero_length :
    (reset_args ".metadata.calibre" "u-1" true).length = 2 ∧
    (delete_remote_flow ackDevice "u-1" ".metadata.calibre").2.contains
        (ProtoEv.sendBytes "[]") = true := by
  exact ⟨rfl, rfl⟩

/-- C3 (amended): the remote catalog reset impersonates a one-file
transfer of the two-byte serialized empty list `b"[]"` (not zero-length)
whose target path is the catalog filename, streams that payload, and
then issues a delete for the same path, using the device-supplied
corrected path from the acknowledgement. -/
theorem C3_catalog_reset_exchange (device : ProtoDevice) (u target op : String)
    (res : DevResponse)
    (hack : device.can_send_ok_to_sendbook = true)
    (hresp : device.respond "SEND_BOOK" (reset_args target u true) = (op, res))
    (hop : op ≠ "ERROR") :
    delete_remote_flow device u target
      = (Except.ok (res.lpath.getD target),
         [ProtoEv.lockAcquire,
          ProtoEv.callClient "SEND_BOOK" (reset_args target u true) true,
          ProtoEv.sendBytes "[]",
          ProtoEv.lockRelease,
          ProtoEv.deleteBooks [res.lpath.getD target]]) ∧
    (reset_args target u true).lpath = target ∧
    (reset_args target u true).totalBooks = 1 ∧
    (reset_args target u true).thisBook = 0 ∧
    (reset_args target u true).length = reset_payload.length ∧
    reset_payload = "[]" := by
  refine ⟨?_, rfl, rfl, rfl, rfl, rfl⟩
  have hpe : "[]".isEmpty = false := rfl
  simp [delete_remote_flow, purge_remote_metadata_file, hack, hresp, hop,
    reset_payload, hpe]

/-- C3 witness: the acknowledged-reset scenario at a concrete device
whose acknowledgement corrects the path. -/
theorem C3_catalog_reset_exchange_witness :
    delete_remote_flow ackDevice "u-1" ".metadata.calibre"
      = (Except.ok "inbox/.metadata.calibre",
         [ProtoEv.lockAcquire,
          ProtoEv.callClient "SEND_BOOK" (reset_args ".metadata.calibre" "u-1" true) true,
          ProtoEv.sendBytes "[]",
          ProtoEv.lockRelease,
          ProtoEv.deleteBooks ["inbox/.metadata.calibre"]]) := by
  have h := C3_catalog_reset_exchange ackDevice "u-1" ".metadata.calibre" "OK"
    ⟨none, some "inbox/.metadata.calibre"⟩ rfl rfl (by decide)
  simpa using h.1

set_option maxRecDepth 8000 in
/-- C10: under the default `\x7bauthor\x7d - \x7btitle\x7d` template the
100-character cap is applied to each placeholder value separately and
the extension is appended afterwards, so a 150-character author and a
150-character title produce a destination filename of 208 characters —
well over 100. -/
theorem C10_complete_filename_can_exceed_cap :
    build_filename c10_mi "EPUB" "{author} - {title}"
      = (List.replicate 100 'a' ++ " - ".toList ++ List.replicate 100 'b'
          ++ ".epub".toList) ∧
    (build_filename c10_mi "EPUB" "{author} - {title}").length = 208 := by
  exact ⟨by decide, by decide⟩

/-- Processing one task adds exactly one outcome (success or failure)
and attempts exactly that task, whatever the device does. -/
theorem process_task_effects (upload : RawTask → UploadResult)
    (fs : String → Except PyExc String) (total i : Nat) (t : RawTask)
    (st : WorkerSt) :
    ((process_task upload fs total i t st).success_titles.length
        + (process_task upload fs total i t st).failed_list.length
      = st.success_titles.length + st.failed_list.length + 1) ∧
    (process_task upload fs total i t st).attempted = st.attempted ++ [t.title] := by
  unfold process_task
  cases hv : t.verify_md5 <;> simp only [hv] <;>
    [skip; cases hfs : fs t.path] <;>
    simp only [Bool.false_eq_true, if_false, if_true, reduceIte] <;>
    · generalize hsend : send_single_book _ _ _ = sendRes
      obtain ⟨⟨ok, err, location⟩, reports⟩ := sendRes
      cases ok <;> cases location <;>
        simp [List.length_append, Nat.add_assoc, Nat.add_comm, Nat.add_left_comm]

/-- With the abort flag never set, the worker loop attempts every task
in order and produces exactly one outcome per task. -/
theorem worker_go_no_abort (upload : RawTask → UploadResult)
    (fs : String → Except PyExc String) (total : Nat) :
    ∀ (ts : List RawTask) (i : Nat) (st : WorkerSt),
      ((worker_go upload fs (fun _ => false) total ts i st).success_titles.length
          + (worker_go upload fs (fun _ => false) total ts i st).failed_list.length
        = st.success_titles.length + st.failed_list.length + ts.length) ∧
      (worker_go upload fs (fun _ => false) total ts i st).attempted
        = st.attempted ++ ts.map (fun t => t.title) := by
  intro ts
  induction ts with
  | nil => intro i st; simp [worker_go]
  | cons t rest ih =>
    intro i st
    simp only [worker_go, Bool.false_eq_true, if_false, reduceIte]
    have h := process_task_effects upload fs total i t st
    have h2 := ih (i + 1) (process_task upload fs total i t st)
    refine ⟨?_, ?_⟩
    · rw [h2.1, h.1]; simp [List.length_cons]; omega
    · rw [h2.2, h.2]; simp

/-- Cutting the loop with an abort flag that becomes set at index `k` is
the same as running the unaborted loop on the first `k - i` remaining
tasks. -/
theorem worker_go_abortAfter (upload : RawTask → UploadResult)
    (fs : String → Except PyExc String) (total k : Nat) :
    ∀ (ts : List RawTask) (i : Nat) (st : WorkerSt), i ≤ k →
      worker_go upload fs (abortAfter k) total ts i st
        = worker_go upload fs (fun _ => false) total (ts.take (k - i)) i st := by
  intro ts
  induction ts with
  | nil => intro i st _; simp [worker_go, List.take_nil]
  | cons t rest ih =>
    intro i st h
    by_cases hik : k ≤ i
    · have hek : i = k := Nat.le_antisymm h hik
      subst hek
      simp [worker_go, abortAfter, Nat.sub_self]
    · have hd : decide (k ≤ i) = false := decide_eq_false hik
      have hsub : k - i = (k - (i + 1)) + 1 := by omega
      rw [hsub, List.take_succ_cons]
      simp only [worker_go, abortAfter, hd, Bool.false_eq_true, if_false, reduceIte]
      exact ih (i + 1) _ (by omega)

/-- C4: a task whose send raises is recorded as failed with the captured
reason and does not abort the batch.  Concretely, for the 3-task batch
where the device raises on book 2: books 1 and 3 succeed, book 2 fails
with its reason, the exception's trace lands in the error reports, and
the final progress notification is `1.0`.  In general (second conjunct),
with no abort every task is attempted, each contributes exactly one
outcome, and the final notification `(1.0, 发送完成)` is always last. -/
theorem C4_partial_failure_batch :
    (send_raw_books_worker c4_upload md5fs (fun _ => false) [c4_t1, c4_t2, c4_t3]
      = { success_titles := ["Book1", "Book3"]
          failed_list := [("Book2", "network down")]
          reports := [("Book2", "network down", "Traceback: network down")]
          upload_locations := [(some "Book1", 3), (some "Book3", 3)]
          upload_metadata := [mi0, mi0]
          notes := [(progressFrac 0 3, "正在发送 (1/3): Book1"),
                    (progressFrac 1 3, "正在发送 (2/3): Book2"),
                    (progressFrac 2 3, "正在发送 (3/3): Book3"),
                    ((1 : Rat), "发送完成")]
          attempted := ["Book1", "Book2", "Book3"] }) ∧
    (∀ (upload : RawTask → UploadResult) (fs : String → Except PyExc String)
       (ts : List RawTask),
      ((send_raw_books_worker upload fs (fun _ => false) ts).success_titles.length
          + (send_raw_books_worker upload fs (fun _ => false) ts).failed_list.length
        = ts.length) ∧
      (send_raw_books_worker upload fs (fun _ => false) ts).attempted
        = ts.map (fun t => t.title) ∧
      (send_raw_books_worker upload fs (fun _ => false) ts).notes.getLast?
        = some ((1 : Rat), "发送完成")) := by
  refine ⟨rfl, ?_⟩
  intro upload fs ts
  have h := worker_go_no_abort upload fs ts.length ts 0 initSt
  refine ⟨?_, ?_, ?_⟩
  · simpa [send_raw_books_worker, initSt] using h.1
  · simpa [send_raw_books_worker, initSt] using h.2
  · simp [send_raw_books_worker, List.getLast?_concat]

/-- C5: when the cooperative abort flag becomes set after `k` tasks, the
worker behaves exactly as if only the first `k` tasks existed (results
for them are kept, none of the rest is ever attempted), still emits the
final progress update, and yields `min k n` outcomes; in particular,
cancelling after task 1 of 5 attempts only the first task and yields
exactly one outcome. -/
theorem C5_cooperative_cancellation (upload : RawTask → UploadResult)
    (fs : String → Except PyExc String) (tasks : List RawTask) (k : Nat) :
    (send_raw_books_worker upload fs (abortAfter k) tasks
      = (fun st => { st with notes := st.notes ++ [((1 : Rat), "发送完成")] })
          (worker_go upload fs (fun _ => false) tasks.length (tasks.take k) 0
            initSt)) ∧
    (send_raw_books_worker upload fs (abortAfter k) tasks).attempted
      = (tasks.take k).map (fun t => t.title) ∧
    ((send_raw_books_worker upload fs (abortAfter k) tasks).success_titles.length
      + (send_raw_books_worker upload fs (abortAfter k) tasks).failed_list.length
      = min k tasks.length) ∧
    (send_raw_books_worker upload fs (abortAfter k) tasks).notes.getLast?
      = some ((1 : Rat), "发送完成") ∧
    (∀ t1 t2 t3 t4 t5 : RawTask,
      (send_raw_books_worker upload fs (abortAfter 1)
          [t1, t2, t3, t4, t5]).attempted = [t1.title] ∧
      ((send_raw_books_worker upload fs (abortAfter 1)
            [t1, t2, t3, t4, t5]).success_titles.length
        + (send_raw_books_worker upload fs (abortAfter 1)
            [t1, t2, t3, t4, t5]).failed_list.length = 1)) := by
  have key : ∀ (ts : List RawTask) (m : Nat),
      send_raw_books_worker upload fs (abortAfter m) ts
        = (fun st => { st with notes := st.notes ++ [((1 : Rat), "发送完成")] })
            (worker_go upload fs (fun _ => false) ts.length (ts.take m) 0
              initSt) := by
    intro ts m
    unfold send_raw_books_worker
    rw [worker_go_abortAfter upload fs ts.length m ts 0 initSt (Nat.zero_le m)]
    simp only [Nat.sub_zero]
  have att : ∀ (ts : List RawTask) (m : Nat),
      (send_raw_books_worker upload fs (abortAfter m) ts).attempted
        = (ts.take m).map (fun t => t.title) := by
    intro ts m
    rw [key ts m]
    simpa [initSt] using
      (worker_go_no_abort upload fs ts.length (ts.take m) 0 initSt).2
  have cnt : ∀ (ts : List RawTask) (m : Nat),
      (send_raw_books_worker upload fs (abortAfter m) ts).success_titles.length
        + (send_raw_books_worker upload fs (abortAfter m) ts).failed_list.length
        = min m ts.length := by
    intro ts m
    rw [key ts m]
    have h := (worker_go_no_abort upload fs ts.length (ts.take m) 0 initSt).1
    simpa [initSt, List.length_take] using h
  refine ⟨key tasks k, att tasks k, cnt tasks k, ?_, ?_⟩
  · rw [key tasks k]
    simp [List.getLast?_concat]
  · intro t1 t2 t3 t4 t5
    refine ⟨?_, ?_⟩
    · simpa using att [t1, t2, t3, t4, t5] 1
    · simpa using cnt [t1, t2, t3, t4, t5] 1

/-- C6: for any source record, a (non-null) format code and byte size,
the sanitizer sets extension (lowercased) and size unconditionally, sets
the content hash only when a truthy one is provided (leaving the source
value untouched otherwise), leaves no cover or thumbnail binary data and
no per-format metadata sub-records, always leaves a non-empty unique
identifier, and generates the fresh one exactly when the source record
lacks a truthy uuid.  The hypothesis `u ≠ ""` reflects that
`str(uuid4())` is never empty. -/
theorem C6_sanitizer_invariants (mi : PyMetadata) (ext : String) (sz : Int)
    (md5 : Option String) (u : String) (hu : u ≠ "") :
    ((prepare_metadata_for_device mi ext sz md5 u).extension
        = some (pyLower ext)) ∧
    ((prepare_metadata_for_device mi ext sz md5 u).size = some sz) ∧
    (truthyStr md5 = true →
      (prepare_metadata_for_device mi ext sz md5 u).md5 = md5) ∧
    (truthyStr md5 = false →
      (prepare_metadata_for_device mi ext sz md5 u).md5 = mi.md5) ∧
    ((prepare_metadata_for_device mi ext sz md5 u).format_metadata.getD []
        = []) ∧
    ((prepare_metadata_for_device mi ext sz md5 u).cover_data.getD none
        = none) ∧
    ((prepare_metadata_for_device mi ext sz md5 u).thumbnail.getD none
        = none) ∧
    (truthyStr (prepare_metadata_for_device mi ext sz md5 u).uuid = true) ∧
    (truthyStr mi.uuid = false →
      (prepare_metadata_for_device mi ext sz md5 u).uuid = some u) := by
  have hne : u.isEmpty = false := by
    cases he : u.isEmpty
    · rfl
    · exact absurd ((String.isEmpty_iff u).mp he) hu
  unfold prepare_metadata_for_device
  cases hmd : truthyStr md5 <;>
    cases hfm : mi.format_metadata <;>
    cases hcv : mi.cover_data <;>
    cases hth : mi.thumbnail <;>
    cases huu : truthyStr mi.uuid <;>
    simp_all [truthyStr, Option.getD]

/-- C6 witness: the invariants evaluated at a concrete record, format
code and fresh uuid. -/
theorem C6_sanitizer_invariants_witness :
    ("u1" : String) ≠ "" ∧
    (prepare_metadata_for_device mi0 "EPUB" 5 none "u1").extension
      = some "epub" ∧
    (prepare_metadata_for_device mi0 "EPUB" 5 none "u1").size = some 5 ∧
    truthyStr (prepare_metadata_for_device mi0 "EPUB" 5 none "u1").uuid
      = true ∧
    (prepare_metadata_for_device mi0 "EPUB" 5 none "u1").md5 = none := by
  obtain ⟨h1, h2, _, h4, _, _, _, h8, _⟩ :=
    C6_sanitizer_invariants mi0 "EPUB" 5 none "u1" (by decide)
  exact ⟨by decide, by rw [h1]; rfl, h2, h8, by rw [h4 rfl]; rfl⟩

/-- A character surviving one replacement step is the underscore or an
original character different from the replaced one. -/
theorem mem_replaceChar {a ch : Char} {l : List Char}
    (h : a ∈ replaceChar ch l) : a = '_' ∨ (a ∈ l ∧ a ≠ ch) := by
  unfold replaceChar at h
  rcases List.mem_map.1 h with ⟨x, hx, hfx⟩
  by_cases hxc : x = ch
  · subst hxc; rw [if_pos rfl] at hfx; exact Or.inl hfx.symm
  · rw [if_neg hxc] at hfx
    subst hfx
    exact Or.inr ⟨hx, hxc⟩

/-- A character surviving the whole replacement fold is the underscore
or an original character not among the replaced ones. -/
theorem mem_fold_replace {a : Char} {cs : List Char} :
    ∀ {l : List Char}, a ∈ cs.foldl (fun acc c => replaceChar c acc) l →
      a = '_' ∨ (a ∈ l ∧ a ∉ cs) := by
  induction cs with
  | nil => intro l h; exact Or.inr ⟨h, by simp⟩
  | cons c cs ih =>
    intro l h
    rw [List.foldl_cons] at h
    rcases ih h with h1 | ⟨hmem, hnot⟩
    · exact Or.inl h1
    · rcases mem_replaceChar hmem with h2 | ⟨hl, hne⟩
      · exact Or.inl h2
      · exact Or.inr ⟨hl, by simp [hne, hnot]⟩

/-- After the replacement loop no unsafe character remains. -/
theorem mem_replace_invalid_not_invalid {a : Char} {l : List Char}
    (h : a ∈ replace_invalid l) : a ∉ invalid_chars := by
  rcases mem_fold_replace h with h1 | ⟨_, hn⟩
  · subst h1; decide
  · exact hn

/-- Stripping only removes characters. -/
theorem mem_pyStrip {a : Char} {strip l : List Char}
    (h : a ∈ pyStrip strip l) : a ∈ l := by
  unfold pyStrip at h
  rw [List.mem_reverse] at h
  have h2 := List.Sublist.mem h (List.dropWhile_sublist _)
  rw [List.mem_reverse] at h2
  exact List.Sublist.mem h2 (List.dropWhile_sublist _)

/-- The last character of a stripped string is never one of the stripped
characters. -/
theorem pyStrip_getLast? {strip l : List Char} {c : Char}
    (h : (pyStrip strip l).getLast? = some c) : strip.contains c = false := by
  unfold pyStrip at h
  rw [List.getLast?_reverse] at h
  have hd := List.head?_dropWhile_not (fun x => strip.contains x)
    ((l.dropWhile (fun x => strip.contains x)).reverse)
  rw [h] at hd
  exact hd

set_option maxRecDepth 4000 in
/-- C7 counterexample: on the 101-character input of 99 `a`s, a dot, and
a `b`, the trailing-trim happens before the 100-character cap, so the
returned name ends in a dot — the claim's "result trimmed of trailing
dots and spaces" is false for this input. -/
theorem C7_counterexample_trailing_dot_survives_cap :
    (safe_filename (List.replicate 99 'a' ++ ['.', 'b'])).getLast?
      = some '.' ∧
    (safe_filename (List.replicate 99 'a' ++ ['.', 'b'])).length = 100 := by
  exact ⟨by decide, by decide⟩

/-- C7 (amended): the safe-name transform never emits one of the nine
filesystem-unsafe characters, never exceeds 100 characters, and never
returns empty; the trailing dots/spaces trim is applied before the
100-character cap, so freedom from a trailing dot or space is guaranteed
(only) when the stripped name already fits in 100 characters. -/
theorem C7_safe_filename_props (name : List Char) :
    (∀ c ∈ safe_filename name, c ∉ invalid_chars) ∧
    (safe_filename name).length ≤ 100 ∧
    safe_filename name ≠ [] ∧
    ((pyStrip ['.', ' '] (replace_invalid name)).length ≤ 100 →
      (safe_filename name).getLast? ≠ some '.' ∧
      (safe_filename name).getLast? ≠ some ' ') := by
  by_cases h0 : name.isEmpty
  · rw [safe_filename, if_pos h0]
    exact ⟨by decide, by decide, by decide, fun _ => ⟨by decide, by decide⟩⟩
  · rw [safe_filename, if_neg h0]
    simp only []
    by_cases h2 : (pyStrip ['.', ' '] (replace_invalid name)).length > 100
    · rw [if_pos h2]
      have hne : ((pyStrip ['.', ' '] (replace_invalid name)).take 100).isEmpty
          = false := by
        rw [List.isEmpty_eq_false, Ne, ← List.length_eq_zero, List.length_take]
        omega
      rw [if_neg (by simp [hne])]
      refine ⟨?_, ?_, ?_, ?_⟩
      · intro c hc
        have hc2 := List.Sublist.mem hc (List.take_sublist _ _)
        exact mem_replace_invalid_not_invalid (mem_pyStrip hc2)
      · rw [List.length_take]; omega
      · intro hnil
        rw [hnil] at hne
        simp at hne
      · intro hle; omega
    · rw [if_neg h2]
      by_cases h3 : (pyStrip ['.', ' '] (replace_invalid name)).isEmpty
      · rw [if_pos h3]
        exact ⟨by decide, by decide, by decide, fun _ => ⟨by decide, by decide⟩⟩
      · rw [if_neg h3]
        refine ⟨?_, ?_, ?_, ?_⟩
        · intro c hc
          exact mem_replace_invalid_not_invalid (mem_pyStrip hc)
        · omega
        · intro hnil
          rw [hnil] at h3
          simp at h3
        · intro _
          constructor
          · intro heq
            have := pyStrip_getLast? heq
            have hx : (['.', ' '] : List Char).contains '.' = true := by decide
            rw [hx] at this
            cases this
          · intro heq
            have := pyStrip_getLast? heq
            have hx : (['.', ' '] : List Char).contains ' ' = true := by decide
            rw [hx] at this
            cases this

/-- C7 witness: the properties at a concrete unsafe name that needs no
truncation. -/
theorem C7_safe_filename_props_witness :
    (pyStrip ['.', ' '] (replace_invalid "a<b. ".toList)).length ≤ 100 ∧
    (safe_filename "a<b. ".toList).length ≤ 100 ∧
    safe_filename "a<b. ".toList ≠ [] ∧
    (safe_filename "a<b. ".toList).getLast? ≠ some '.' ∧
    (safe_filename "a<b. ".toList).getLast? ≠ some ' ' := by
  obtain ⟨_, hb, hc, hd⟩ := C7_safe_filename_props "a<b. ".toList
  have hlen : (pyStrip ['.', ' '] (replace_invalid "a<b. ".toList)).length
      ≤ 100 := by decide
  obtain ⟨he, hf⟩ := hd hlen
  exact ⟨hlen, hb, hc, he, hf⟩

/-- Preferred formats absent from the book are skipped by the
preference walk. -/
theorem pick_preferred_skip (formats : List String) :
    ∀ (pre rest : List String),
      (∀ g ∈ pre, formats.contains (pyUpper g) = false) →
      pick_preferred (pre ++ rest) formats = pick_preferred rest formats := by
  intro pre
  induction pre with
  | nil => intro rest _; rfl
  | cons g pre ih =>
    intro rest h
    rw [List.cons_append, pick_preferred, h g (List.mem_cons_self g pre)]
    simp only [Bool.false_eq_true, if_false, reduceIte]
    exact ih rest (fun x hx => h x (List.mem_cons_of_mem g hx))

/-- A successfully built task carries the verification flag it was built
with. -/
theorem build_one_task_verify (p : List String) (t : String) (v : Bool)
    (req : Option String) (b : Book) (tk : RawTask)
    (h : build_one_task p t v req b = .ok tk) : tk.verify_md5 = v := by
  unfold build_one_task at h
  repeat' split at h
  all_goals simp_all
  rw [← h]

/-- Every book contributes exactly one outcome to the task-building
fold: a task or a skip reason. -/
theorem build_fold_count (p : List String) (t : String) (v : Bool)
    (req : Option String) :
    ∀ books : List Book,
      ((books.foldr
          (fun b acc =>
            match build_one_task p t v req b with
            | .ok tk => (tk :: acc.1, acc.2)
            | .error e => (acc.1, e :: acc.2))
          (([] : List RawTask), ([] : List String))).1.length
        + (books.foldr
            (fun b acc =>
              match build_one_task p t v req b with
              | .ok tk => (tk :: acc.1, acc.2)
              | .error e => (acc.1, e :: acc.2))
            (([] : List RawTask), ([] : List String))).2.length
        = books.length) := by
  intro books
  induction books with
  | nil => rfl
  | cons b bs ih =>
    simp only [List.foldr_cons]
    cases hbt : build_one_task p t v req b <;> simp [hbt] <;> omega

/-- Every task of the task-building fold carries the verification flag. -/
theorem build_fold_verify (p : List String) (t : String) (v : Bool)
    (req : Option String) :
    ∀ (books : List Book) (tk : RawTask),
      tk ∈ (books.foldr
          (fun b acc =>
            match build_one_task p t v req b with
            | .ok tk => (tk :: acc.1, acc.2)
            | .error e => (acc.1, e :: acc.2))
          (([] : List RawTask), ([] : List String))).1 →
      tk.verify_md5 = v := by
  intro books
  induction books with
  | nil => intro tk htk; cases htk
  | cons b bs ih =>
    intro tk htk
    simp only [List.foldr_cons] at htk
    cases hbt : build_one_task p t v req b <;> rw [hbt] at htk
    · exact ih tk htk
    · rcases List.mem_cons.1 htk with heq | hmem
      · subst heq
        exact build_one_task_verify p t v req b _ hbt
      · exact ih tk hmem

/-- C8: format selection is deterministic and follows the stated order:
formats `[EPUB, MOBI]` with preference list `[AZW3, EPUB, PDF]` select
`EPUB`; a requested format is selected exactly when the book has it; the
first present preference wins; with no present preference the first
available format is the fallback; a book with no formats, or whose
requested format is absent, yields a recorded skip reason; and every
book contributes exactly one outcome (task or skip), so a skip never
aborts the batch. -/
theorem C8_format_selection_order :
    (select_format none ["AZW3", "EPUB", "PDF"] ["EPUB", "MOBI"]
      = some "EPUB") ∧
    (∀ (r : String) (preferred formats : List String),
      (select_format (some r) preferred formats = some (pyUpper r)
        ↔ formats.contains (pyUpper r) = true) ∧
      (select_format (some r) preferred formats = none
        ↔ formats.contains (pyUpper r) = false)) ∧
    (∀ (pre post formats : List String) (f : String),
      (∀ g ∈ pre, formats.contains (pyUpper g) = false) →
      formats.contains (pyUpper f) = true →
      select_format none (pre ++ f :: post) formats = some (pyUpper f)) ∧
    (∀ (preferred formats : List String),
      (∀ g ∈ preferred, formats.contains (pyUpper g) = false) →
      select_format none preferred formats = formats.head?) ∧
    (∀ (p : List String) (t : String) (v : Bool) (req : Option String)
        (b : Book),
      b.formats = [] →
      build_one_task p t v req b
        = .error (pyShowOptStr b.mi.title ++ " - 无可用格式")) ∧
    (∀ (p : List String) (t r : String) (v : Bool) (b : Book),
      b.formats ≠ [] →
      b.formats.contains (pyUpper r) = false →
      build_one_task p t v (some r) b
        = .error (pyShowOptStr b.mi.title ++ " - 无 " ++ r ++ " 格式")) ∧
    (∀ (prefs : JsonConfig) (books : List Book) (req : Option String),
      (build_tasks prefs books req).1.length
        + (build_tasks prefs books req).2.length = books.length) := by
  refine ⟨by decide, ?_, ?_, ?_, ?_, ?_, ?_⟩
  · intro r preferred formats
    cases h : formats.contains (pyUpper r) <;>
      simp [select_format, h] <;> simpa using h
  · intro pre post formats f hpre hf
    unfold select_format
    rw [pick_preferred_skip formats pre (f :: post) hpre, pick_preferred, hf]
    simp
  · intro preferred formats hpre
    unfold select_format
    have h := pick_preferred_skip formats preferred [] hpre
    rw [List.append_nil] at h
    rw [h]
    rfl
  · intro p t v req b hb
    simp [build_one_task, hb]
  · intro p t r v b hb hr
    rw [build_one_task, if_neg (by simp [List.isEmpty_eq_false.2 hb])]
    have hnm : pyUpper r ∉ b.formats := by simpa using hr
    simp [select_format, hnm, pyShowOptStr]
  · intro prefs books req
    simp only [build_tasks]
    exact build_fold_count _ _ _ req books

/-- C8 witness: the selection rules at concrete formats, preference
lists and books. -/
theorem C8_format_selection_order_witness :
    (select_format none ["AZW3", "EPUB", "PDF"] ["EPUB", "MOBI"]
      = some "EPUB") ∧
    (select_format none ("AZW3" :: "EPUB" :: []) ["EPUB", "MOBI"]
      = some "EPUB") ∧
    (build_one_task [] "{author} - {title}" false (some "PDF")
        { c9_book with formats := ["EPUB"] }
      = .error "T - 无 PDF 格式") := by
  obtain ⟨h1, _, h3, _, _, h6, _⟩ := C8_format_selection_order
  refine ⟨h1, ?_, ?_⟩
  · have := h3 ["AZW3"] [] ["EPUB", "MOBI"] "EPUB" (by decide) (by decide)
    simpa using this
  · have := h6 [] "{author} - {title}" "PDF" false
      { c9_book with formats := ["EPUB"] } (by decide) (by decide)
    simpa [c9_book, mi0, pyShowOptStr] using this

/-- C9 counterexample: with no explicitly stored `verify_md5` value,
task building yields tasks with hash verification disabled — the
registered default `False` of `config.py` line 27 wins over the
call-site fallback `True` under calibre's `JSONConfig.get`. -/
theorem C9_counterexample_verification_disabled_by_default :
    ((build_tasks (mkPrefs []) [c9_book] none).1.map
        (fun tk => tk.verify_md5) = [false]) ∧
    (mkPrefs []).stored.lookup "verify_md5" = none ∧
    (mkPrefs []).get "verify_md5" (.b true) = .b false := by
  exact ⟨rfl, rfl, rfl⟩

/-- C9 (amended): the integrity-verification toggle defaults to OFF:
whenever the settings store holds no explicit `verify_md5` value, every
task built has per-task hash verification disabled, because the
registered default `False` takes precedence over the call-site fallback
`True`. -/
theorem C9_verify_md5_defaults_off (stored : List (String × PrefVal))
    (h : stored.lookup "verify_md5" = none) (books : List Book)
    (req : Option String) :
    ∀ tk ∈ (build_tasks (mkPrefs stored) books req).1,
      tk.verify_md5 = false := by
  intro tk htk
  have hv : (mkPrefs stored).get "verify_md5" (.b true) = .b false := by
    unfold JsonConfig.get
    simp only [mkPrefs]
    rw [h]
    rfl
  simp only [build_tasks, hv, PrefVal.asBool] at htk
  exact build_fold_verify _ _ false req books tk htk

/-- C9 witness: with the empty store, every task built for a concrete
book has verification disabled. -/
theorem C9_verify_md5_defaults_off_witness :
    (build_tasks (mkPrefs []) [c9_book] none).1.all
      (fun tk => !tk.verify_md5) = true := by
  rw [List.all_eq_true]
  intro tk htk
  have h := C9_verify_md5_defaults_off [] rfl [c9_book] none tk htk
  simp [h]

end SendRaw
